import Mathlib

/-!
Verification of the feature-flag plugin (better-auth-feature-flags).

The definitions below are a shallow embedding of the plugin's server
endpoints (`src/server/endpoints/features.ts`,
`src/server/endpoints/organization-features.ts`,
`src/server/endpoints/feature-flags.ts`) and the hook helpers
(`src/server/hook-helpers.ts`).  The generic record store (better-auth's
data adapter) is external to the repository; its contract (`findOne` /
`findMany` return matching records in insertion order, `create` assigns a
fresh id and timestamps, `update` patches the given fields and advances
`updatedAt`, `delete` removes the matching records) is modelled from the
spec's description of the store interface.
-/

namespace FeatureFlags

/-- A `feature` row, per the schema in `src/server/schema.ts`: the feature
table has columns `name`, `displayName`, `description`, `active`,
`createdAt`, `updatedAt` plus the id.  Timestamps are modelled as `Nat`. -/
structure Feature where
  id : String
  name : String
  displayName : String
  description : Option String
  active : Bool
  createdAt : Nat
  updatedAt : Nat
deriving DecidableEq

/-- A per-principal flag row (`organizationFeature` / `featureFlag` model):
`organizationId`, `featureId`, `enabled`, timestamps, id. -/
structure Flag where
  id : String
  organizationId : String
  featureId : String
  enabled : Bool
  createdAt : Nat
  updatedAt : Nat
deriving DecidableEq

/-- A `user` row, restricted to the fields the endpoints read. -/
structure UserRec where
  id : String
  role : String
deriving DecidableEq

/-- A `member` row, restricted to the fields the endpoints read. -/
structure MemberRec where
  organizationId : String
  userId : String
deriving DecidableEq

/-- The record store: one list per model the endpoints touch.  The
`organizationFeature` and `featureFlag` models are distinct tables (the two
endpoint generations use different model names). -/
structure Store where
  features : List Feature
  orgFeatures : List Flag
  featureFlags : List Flag
  users : List UserRec
  organizations : List String
  members : List MemberRec
deriving DecidableEq

/-- The session the `sessionMiddleware` hands to a handler:
`{user: {id}, session: {activeOrganizationId?}} | null` (here the `Option`
around `Session` is the `null` case). -/
structure Session where
  userId : String
  activeOrganizationId : Option String
deriving DecidableEq

/-- The value of one column of a record, as seen by the generic adapter.
A `where` clause naming a column the model does not have reads
`undefined` (`absent` here), which compares unequal to every present
value — exactly JavaScript's `record[field] === value` on a missing key. -/
inductive FieldVal where
  | s (v : String)
  | b (v : Bool)
  | n (v : Nat)
  | null
  | absent
deriving DecidableEq

/-- Column lookup on a `feature` row by adapter field name.  The feature
schema has no `enabled` column, so `"enabled"` (and every other unknown
name) yields `absent`. -/
def Feature.fieldVal (f : Feature) : String → FieldVal
  | "id" => .s f.id
  | "name" => .s f.name
  | "displayName" => .s f.displayName
  | "description" =>
      match f.description with
      | some d => .s d
      | none => .null
  | "active" => .b f.active
  | "createdAt" => .n f.createdAt
  | "updatedAt" => .n f.updatedAt
  | _ => .absent

/-- One `where` clause of an adapter query: `{field, operator, value}` with
operator `eq` (on a string or boolean value) or `in` (list of strings). -/
inductive WhereClause where
  | eqS (fld : String) (v : String)
  | eqB (fld : String) (v : Bool)
  | inS (fld : String) (vs : List String)
deriving DecidableEq

/-- Whether a feature row satisfies one `where` clause. -/
def Feature.matchesClause (f : Feature) : WhereClause → Bool
  | .eqS fld v => f.fieldVal fld == .s v
  | .eqB fld v => f.fieldVal fld == .b v
  | .inS fld vs =>
      match f.fieldVal fld with
      | .s x => vs.contains x
      | _ => false

/-- Adapter call `adapter.findMany({model: "feature", where})`: all rows satisfying
every clause, in table order. -/
def findManyFeatures (st : Store) (wh : List WhereClause) : List Feature :=
  st.features.filter (fun f => wh.all (f.matchesClause))

/-- Adapter call `adapter.findOne({model: "feature", where})`: first match or null. -/
def findOneFeature (st : Store) (wh : List WhereClause) : Option Feature :=
  (findManyFeatures st wh).head?

/-- Adapter call `adapter.findOne({model: "user", where: [id eq uid], select: [role]})`. -/
def findUser (st : Store) (uid : String) : Option UserRec :=
  (st.users.filter (fun u => u.id == uid)).head?

/-- Adapter call `adapter.findOne({model: "organization", where: [id eq orgId]})`. -/
def findOrganization (st : Store) (orgId : String) : Option String :=
  (st.organizations.filter (fun o => o == orgId)).head?

/-- Adapter call `adapter.findOne({model: "member", where: [organizationId eq orgId,
userId eq uid]})`. -/
def findMember (st : Store) (orgId uid : String) : Option MemberRec :=
  (st.members.filter (fun m => m.organizationId == orgId && m.userId == uid)).head?

/-- The compound-key probe used by the flag endpoints:
`findOne` on a flag model with `organizationId eq P` and `featureId eq F`. -/
def findFlagByOrgFeature (flags : List Flag) (orgId fid : String) : Option Flag :=
  (flags.filter (fun fl => fl.organizationId == orgId && fl.featureId == fid)).head?

/-- Whether the first character list is a prefix of the second. -/
def charsStartWith : List Char → List Char → Bool
  | [], _ => true
  | _ :: _, [] => false
  | p :: ps, c :: cs => p == c && charsStartWith ps cs

/-- Whether `pat` occurs contiguously inside the second list. -/
def charsContain (pat : List Char) : List Char → Bool
  | [] => pat.isEmpty
  | c :: cs => charsStartWith pat (c :: cs) || charsContain pat cs

/-- Check `user.role.includes("admin")` — substring containment, as used by the
feature-management endpoints. -/
def roleIncludesAdmin (role : String) : Bool :=
  charsContain "admin".toList role.toList

/-- Lookup `new Map(features.map(f => [f.id, f])).get(fid)` — for duplicate ids the
later entry wins, hence the last matching row. -/
def featureMapGet (features : List Feature) (fid : String) : Option Feature :=
  (features.filter (fun f => f.id == fid)).getLast?

/-- A hook-reported error `{message, status?}`. -/
structure HookError where
  message : String
  status : Option Nat
deriving DecidableEq

/-- Type `BeforeHookResult<T>` from `src/server/hooks.ts`: all three fields
optional. -/
structure BeforeHookResult (T : Type) where
  data : Option T := none
  error : Option HookError := none
  skip : Option Bool := none

/-- Type `AfterHookResult<T>` from `src/server/hooks.ts`. -/
structure AfterHookResult (T : Type) where
  data : Option T := none
  error : Option HookError := none

/-- The normalized value `runBeforeHook` hands back to an endpoint. -/
structure BeforeOut (T : Type) where
  skip : Bool
  data : Option T := none
  error : Option HookError := none

/-- Function `runBeforeHook` from `src/server/hook-helpers.ts`: no hook means
`{skip: false}`; a hook result with `error` forces `skip = true`; otherwise
`skip` defaults to `false` and `data` is forwarded. -/
def runBeforeHook {A T : Type} (hook : Option (A → BeforeHookResult T))
    (args : A) : BeforeOut T :=
  match hook with
  | none => { skip := false }
  | some h =>
      let result := h args
      if result.error.isSome then
        { skip := true, error := result.error }
      else
        { skip := result.skip.getD false, data := result.data }

/-- Function `runAfterHook` from `src/server/hook-helpers.ts`: no hook means `{}`;
otherwise the hook's result is returned as-is. -/
def runAfterHook {A T : Type} (hook : Option (A → AfterHookResult T))
    (args : A) : AfterHookResult T :=
  match hook with
  | none => {}
  | some h => h args

/-- The `{data: ..., error: null}` wrapper each endpoint passes to its
after hook (`error` is always `null` on the paths that reach the hook). -/
structure ActionResult (T : Type) where
  data : Option T
  error : Option String

/-- The hook context `{session}` built by every endpoint. -/
def HookContext := Option Session

/-- What one endpoint invocation produced: the response, the store after
the call, and how many store writes (`create`/`update`/`delete`) ran. -/
structure EpOut (ρ : Type) where
  res : ρ
  store : Store
  writes : Nat
deriving DecidableEq

/-- Input `CreateFeatureInput`: `name`, `displayName` required; `description`
and `active` optional. -/
structure CreateFeatureInput where
  name : String
  displayName : String
  description : Option String := none
  active : Option Bool := none
deriving DecidableEq

/-- Input `UpdateFeatureInput`: all fields optional.  The outer `Option` is
"present in the request"; for `description` the inner `Option` is a JSON
`null` versus a string. -/
structure UpdateFeatureInput where
  displayName : Option String := none
  description : Option (Option String) := none
  active : Option Bool := none
deriving DecidableEq

/-- Input `SetOrganizationFeatureInput`: the requested `enabled` value. -/
structure SetOrganizationFeatureInput where
  enabled : Bool
deriving DecidableEq

/-- The `{success: boolean}` body returned by delete/remove endpoints. -/
structure SuccessObj where
  success : Bool
deriving DecidableEq

/-- Composite `OrganizationFeatureWithDetails` / `FeatureFlagWithDetails`: the flag
row spread together with its `feature` detail record (the extra `findOne`
may in principle return null, hence the `Option`). -/
structure FlagWithDetails where
  flag : Flag
  feature : Option Feature
deriving DecidableEq

/-- The optional `{before?, after?}` hook pair of one operation, with the
argument tuple and payload types of that operation. -/
structure EndpointHooks (BA BT AA AT : Type) where
  before : Option (BA → BeforeHookResult BT) := none
  after : Option (AA → AfterHookResult AT) := none

abbrev CreateFeatureHooks :=
  EndpointHooks (CreateFeatureInput × HookContext) CreateFeatureInput
    (ActionResult Feature × CreateFeatureInput × HookContext) Feature

abbrev ListFeaturesHooks :=
  EndpointHooks HookContext (List Feature)
    (ActionResult (List Feature) × HookContext) (List Feature)

abbrev UpdateFeatureHooks :=
  EndpointHooks (String × UpdateFeatureInput × HookContext) UpdateFeatureInput
    (ActionResult Feature × String × UpdateFeatureInput × HookContext) Feature

abbrev DeleteFeatureHooks :=
  EndpointHooks (String × HookContext) SuccessObj
    (ActionResult SuccessObj × String × HookContext) SuccessObj

abbrev ToggleFeatureHooks :=
  EndpointHooks (String × Bool × HookContext) Bool
    (ActionResult Feature × String × Bool × HookContext) Feature

abbrev SetOrgFeatureHooks :=
  EndpointHooks (String × String × SetOrganizationFeatureInput × HookContext)
    SetOrganizationFeatureInput
    (ActionResult FlagWithDetails × String × String ×
      SetOrganizationFeatureInput × HookContext) FlagWithDetails

abbrev RemoveFlagHooks :=
  EndpointHooks (String × String × HookContext) SuccessObj
    (ActionResult SuccessObj × String × String × HookContext) SuccessObj

abbrev GetFlagsHooks :=
  EndpointHooks (String × HookContext) (List FlagWithDetails)
    (ActionResult (List FlagWithDetails) × String × HookContext)
    (List FlagWithDetails)

abbrev GetAvailableHooks :=
  EndpointHooks HookContext (List FlagWithDetails)
    (ActionResult (List FlagWithDetails) × HookContext) (List FlagWithDetails)

/-- Response of `createFeature`: the short-circuit branch echoes the
before-hook's data (`ctx.json({data: beforeResult.data})`), the main
branch returns the feature, and every failure is `{error}, {status}`. -/
inductive CreateFeatureRes where
  | skipData (d : Option CreateFeatureInput)
  | feature (f : Feature)
  | fail (message : String) (status : Nat)
deriving DecidableEq

/-- Response of `listFeatures`. -/
inductive ListFeaturesRes where
  | list (fs : List Feature)
  | fail (message : String) (status : Nat)
deriving DecidableEq

/-- Response of `updateFeature`. -/
inductive UpdateFeatureRes where
  | skipData (d : Option UpdateFeatureInput)
  | feature (f : Feature)
  | fail (message : String) (status : Nat)
deriving DecidableEq

/-- Response of `deleteFeature` (and the remove-flag endpoints). -/
inductive DeleteRes where
  | ok (r : SuccessObj)
  | fail (message : String) (status : Nat)
deriving DecidableEq

/-- Response of `toggleFeature`. -/
inductive ToggleFeatureRes where
  | skipData (d : Option Bool)
  | feature (f : Feature)
  | fail (message : String) (status : Nat)
deriving DecidableEq

/-- Response of `setOrganizationFeature`. -/
inductive SetOrgFeatureRes where
  | skipData (d : Option SetOrganizationFeatureInput)
  | ok (r : FlagWithDetails)
  | fail (message : String) (status : Nat)
deriving DecidableEq

/-- Response of the flag-listing endpoints. -/
inductive FlagListRes where
  | list (fs : List FlagWithDetails)
  | fail (message : String) (status : Nat)
deriving DecidableEq

/-- The feature row `adapter.create` builds for `createFeature`:
`description: inputData.description || null` (empty string is falsy and
becomes null), `active: inputData.active ?? true`; the adapter assigns the
id and both timestamps. -/
def featureFromInput (newId : String) (now : Nat) (i : CreateFeatureInput) :
    Feature :=
  { id := newId
    name := i.name
    displayName := i.displayName
    description :=
      match i.description with
      | some d => if d == "" then none else some d
      | none => none
    active := i.active.getD true
    createdAt := now
    updatedAt := now }

/-- Endpoint `createCreateFeatureEndpoint` from `src/server/endpoints/features.ts`. -/
def createFeature (hooks : CreateFeatureHooks) (session : Option Session)
    (st : Store) (newId : String) (now : Nat) (body : CreateFeatureInput) :
    EpOut CreateFeatureRes :=
  let hookContext : HookContext := session
  let beforeResult := runBeforeHook hooks.before (body, hookContext)
  if beforeResult.skip then
    match beforeResult.error with
    | some e => ⟨.fail e.message (e.status.getD 400), st, 0⟩
    | none => ⟨.skipData beforeResult.data, st, 0⟩
  else
    let inputData := beforeResult.data.getD body
    match session with
    | none => ⟨.fail "Unauthorized" 401, st, 0⟩
    | some s =>
      match findUser st s.userId with
      | none => ⟨.fail "Forbidden: Admin access required" 403, st, 0⟩
      | some user =>
        if !(roleIncludesAdmin user.role) then
          ⟨.fail "Forbidden: Admin access required" 403, st, 0⟩
        else if inputData.name == "" || inputData.displayName == "" then
          ⟨.fail "name and displayName are required" 400, st, 0⟩
        else
          match findOneFeature st [.eqS "name" inputData.name] with
          | some _ => ⟨.fail "Feature with this name already exists" 409, st, 0⟩
          | none =>
            let feature := featureFromInput newId now inputData
            let st' := { st with features := st.features ++ [feature] }
            let result : ActionResult Feature := ⟨some feature, none⟩
            let afterResult :=
              runAfterHook hooks.after (result, inputData, hookContext)
            match afterResult.error with
            | some e => ⟨.fail e.message (e.status.getD 500), st', 1⟩
            | none => ⟨.feature (afterResult.data.getD feature), st', 1⟩

/-- Insert a feature into a list sorted by `createdAt` descending. -/
def insertByCreatedAtDesc (f : Feature) : List Feature → List Feature
  | [] => [f]
  | g :: gs =>
      if g.createdAt ≤ f.createdAt then f :: g :: gs
      else g :: insertByCreatedAtDesc f gs

/-- Adapter call `findMany({model: "feature", sortBy: {field: "createdAt",
direction: "desc"}})`. -/
def sortByCreatedAtDesc : List Feature → List Feature
  | [] => []
  | f :: fs => insertByCreatedAtDesc f (sortByCreatedAtDesc fs)

/-- Endpoint `createListFeaturesEndpoint` from `src/server/endpoints/features.ts`. -/
def listFeatures (hooks : ListFeaturesHooks) (session : Option Session)
    (st : Store) : EpOut ListFeaturesRes :=
  let hookContext : HookContext := session
  let beforeResult := runBeforeHook hooks.before hookContext
  if beforeResult.skip then
    match beforeResult.error with
    | some e => ⟨.fail e.message (e.status.getD 400), st, 0⟩
    | none => ⟨.list (beforeResult.data.getD []), st, 0⟩
  else
    match session with
    | none => ⟨.fail "Unauthorized" 401, st, 0⟩
    | some s =>
      match findUser st s.userId with
      | none => ⟨.fail "Forbidden: Admin access required" 403, st, 0⟩
      | some user =>
        if !(roleIncludesAdmin user.role) then
          ⟨.fail "Forbidden: Admin access required" 403, st, 0⟩
        else
          let features := sortByCreatedAtDesc st.features
          let result : ActionResult (List Feature) := ⟨some features, none⟩
          let afterResult := runAfterHook hooks.after (result, hookContext)
          match afterResult.error with
          | some e => ⟨.fail e.message (e.status.getD 500), st, 0⟩
          | none => ⟨.list (afterResult.data.getD features), st, 0⟩

/-- The `update` object of `createUpdateFeatureEndpoint`: each field is
spread in only when present (`!== undefined`) in the request, so an
omitted field is untouched and a present `null`/`false` is written.  The
adapter advances `updatedAt` on the write; that timestamp behaviour is
modelled from the spec (`updatedAt` advances on every mutation). -/
def applyFeatureUpdate (now : Nat) (u : UpdateFeatureInput) (f : Feature) :
    Feature :=
  { f with
    displayName := u.displayName.getD f.displayName
    description := u.description.getD f.description
    active := u.active.getD f.active
    updatedAt := now }

/-- Endpoint `createUpdateFeatureEndpoint` from `src/server/endpoints/features.ts`. -/
def updateFeature (hooks : UpdateFeatureHooks) (session : Option Session)
    (st : Store) (featureId : String) (now : Nat) (body : UpdateFeatureInput) :
    EpOut UpdateFeatureRes :=
  let hookContext : HookContext := session
  let beforeResult := runBeforeHook hooks.before (featureId, body, hookContext)
  if beforeResult.skip then
    match beforeResult.error with
    | some e => ⟨.fail e.message (e.status.getD 400), st, 0⟩
    | none => ⟨.skipData beforeResult.data, st, 0⟩
  else
    let inputData := beforeResult.data.getD body
    match session with
    | none => ⟨.fail "Unauthorized" 401, st, 0⟩
    | some s =>
      match findUser st s.userId with
      | none => ⟨.fail "Forbidden: Admin access required" 403, st, 0⟩
      | some user =>
        if !(roleIncludesAdmin user.role) then
          ⟨.fail "Forbidden: Admin access required" 403, st, 0⟩
        else
          match findOneFeature st [.eqS "id" featureId] with
          | none => ⟨.fail "Feature not found" 404, st, 0⟩
          | some existing =>
            let feature := applyFeatureUpdate now inputData existing
            let st' :=
              { st with
                features := st.features.map (fun f =>
                  if f.id == featureId then applyFeatureUpdate now inputData f
                  else f) }
            let result : ActionResult Feature := ⟨some feature, none⟩
            let afterResult :=
              runAfterHook hooks.after (result, featureId, inputData, hookContext)
            match afterResult.error with
            | some e => ⟨.fail e.message (e.status.getD 500), st', 1⟩
            | none => ⟨.feature (afterResult.data.getD feature), st', 1⟩

/-- Endpoint `createDeleteFeatureEndpoint` from `src/server/endpoints/features.ts`.
The short-circuit branch returns `{data: {success: true}}` (not the
hook's data).  Deleting the feature row cascades to the flag rows that
reference it; the cascade is performed by the external store and is
modelled from the schema's `onDelete: "cascade"` declaration. -/
def deleteFeature (hooks : DeleteFeatureHooks) (session : Option Session)
    (st : Store) (featureId : String) : EpOut DeleteRes :=
  let hookContext : HookContext := session
  let beforeResult := runBeforeHook hooks.before (featureId, hookContext)
  if beforeResult.skip then
    match beforeResult.error with
    | some e => ⟨.fail e.message (e.status.getD 400), st, 0⟩
    | none => ⟨.ok ⟨true⟩, st, 0⟩
  else
    match session with
    | none => ⟨.fail "Unauthorized" 401, st, 0⟩
    | some s =>
      match findUser st s.userId with
      | none => ⟨.fail "Forbidden: Admin access required" 403, st, 0⟩
      | some user =>
        if !(roleIncludesAdmin user.role) then
          ⟨.fail "Forbidden: Admin access required" 403, st, 0⟩
        else
          match findOneFeature st [.eqS "id" featureId] with
          | none => ⟨.fail "Feature not found" 404, st, 0⟩
          | some _ =>
            let st' :=
              { st with
                features := st.features.filter (fun f => !(f.id == featureId))
                orgFeatures :=
                  st.orgFeatures.filter (fun fl => !(fl.featureId == featureId))
                featureFlags :=
                  st.featureFlags.filter (fun fl => !(fl.featureId == featureId)) }
            let result : ActionResult SuccessObj := ⟨some ⟨true⟩, none⟩
            let afterResult :=
              runAfterHook hooks.after (result, featureId, hookContext)
            match afterResult.error with
            | some e => ⟨.fail e.message (e.status.getD 500), st', 1⟩
            | none => ⟨.ok (afterResult.data.getD ⟨true⟩), st', 1⟩

/-- Endpoint `createToggleFeatureEndpoint` from `src/server/endpoints/features.ts`:
`active` is the before-hook's data when defined, else the request body's
value, and the update writes only `active` (plus the adapter's
`updatedAt`). -/
def toggleFeature (hooks : ToggleFeatureHooks) (session : Option Session)
    (st : Store) (featureId : String) (now : Nat) (bodyActive : Bool) :
    EpOut ToggleFeatureRes :=
  let hookContext : HookContext := session
  let beforeResult := runBeforeHook hooks.before (featureId, bodyActive, hookContext)
  if beforeResult.skip then
    match beforeResult.error with
    | some e => ⟨.fail e.message (e.status.getD 400), st, 0⟩
    | none => ⟨.skipData beforeResult.data, st, 0⟩
  else
    let active := beforeResult.data.getD bodyActive
    match session with
    | none => ⟨.fail "Unauthorized" 401, st, 0⟩
    | some s =>
      match findUser st s.userId with
      | none => ⟨.fail "Forbidden: Admin access required" 403, st, 0⟩
      | some user =>
        if !(roleIncludesAdmin user.role) then
          ⟨.fail "Forbidden: Admin access required" 403, st, 0⟩
        else
          match findOneFeature st [.eqS "id" featureId] with
          | none => ⟨.fail "Feature not found" 404, st, 0⟩
          | some existing =>
            let feature := { existing with active := active, updatedAt := now }
            let st' :=
              { st with
                features := st.features.map (fun f =>
                  if f.id == featureId then
                    { f with active := active, updatedAt := now }
                  else f) }
            let result : ActionResult Feature := ⟨some feature, none⟩
            let afterResult :=
              runAfterHook hooks.after (result, featureId, active, hookContext)
            match afterResult.error with
            | some e => ⟨.fail e.message (e.status.getD 500), st', 1⟩
            | none => ⟨.feature (afterResult.data.getD feature), st', 1⟩

/-- Endpoint `createSetOrganizationFeatureEndpoint` from
`src/server/endpoints/organization-features.ts`: admin gate
(`user.role !== "admin"`), then feature-exists, feature-active,
organization-exists and duplicate-flag checks in that order, then the
insert of the new flag with the requested `enabled` value. -/
def setOrganizationFeature (hooks : SetOrgFeatureHooks)
    (session : Option Session) (st : Store) (organizationId featureId : String)
    (newId : String) (now : Nat) (body : SetOrganizationFeatureInput) :
    EpOut SetOrgFeatureRes :=
  let hookContext : HookContext := session
  let beforeResult :=
    runBeforeHook hooks.before (organizationId, featureId, body, hookContext)
  if beforeResult.skip then
    match beforeResult.error with
    | some e => ⟨.fail e.message (e.status.getD 400), st, 0⟩
    | none => ⟨.skipData beforeResult.data, st, 0⟩
  else
    let inputData := beforeResult.data.getD body
    match session with
    | none => ⟨.fail "Unauthorized" 401, st, 0⟩
    | some s =>
      match findUser st s.userId with
      | none => ⟨.fail "Forbidden: Admin access required" 403, st, 0⟩
      | some user =>
        if !(user.role == "admin") then
          ⟨.fail "Forbidden: Admin access required" 403, st, 0⟩
        else
          match findOneFeature st [.eqS "id" featureId] with
          | none => ⟨.fail "Feature not found" 404, st, 0⟩
          | some feature =>
            if !feature.active then
              ⟨.fail "Feature is not enabled globally" 400, st, 0⟩
            else
              match findOrganization st organizationId with
              | none => ⟨.fail "Organization not found" 404, st, 0⟩
              | some _ =>
                match findFlagByOrgFeature st.orgFeatures organizationId featureId with
                | some _ =>
                    ⟨.fail "Organization feature already exists" 409, st, 0⟩
                | none =>
                  let orgFeature : Flag :=
                    ⟨newId, organizationId, featureId, inputData.enabled, now, now⟩
                  let st' :=
                    { st with orgFeatures := st.orgFeatures ++ [orgFeature] }
                  let featureDetails := findOneFeature st' [.eqS "id" featureId]
                  let resultData : FlagWithDetails := ⟨orgFeature, featureDetails⟩
                  let result : ActionResult FlagWithDetails :=
                    ⟨some resultData, none⟩
                  let afterResult :=
                    runAfterHook hooks.after
                      (result, organizationId, featureId, inputData, hookContext)
                  match afterResult.error with
                  | some e => ⟨.fail e.message (e.status.getD 500), st', 1⟩
                  | none => ⟨.ok (afterResult.data.getD resultData), st', 1⟩

/-- Endpoint `createRemoveOrganizationFeatureEndpoint` from
`src/server/endpoints/organization-features.ts`: looks the flag up by the
compound (organization, feature) key, then deletes by the found row's
internal id. -/
def removeOrganizationFeature (hooks : RemoveFlagHooks)
    (session : Option Session) (st : Store) (organizationId featureId : String) :
    EpOut DeleteRes :=
  let hookContext : HookContext := session
  let beforeResult :=
    runBeforeHook hooks.before (organizationId, featureId, hookContext)
  if beforeResult.skip then
    match beforeResult.error with
    | some e => ⟨.fail e.message (e.status.getD 400), st, 0⟩
    | none => ⟨.ok ⟨true⟩, st, 0⟩
  else
    match session with
    | none => ⟨.fail "Unauthorized" 401, st, 0⟩
    | some s =>
      match findUser st s.userId with
      | none => ⟨.fail "Forbidden: Admin access required" 403, st, 0⟩
      | some user =>
        if !(user.role == "admin") then
          ⟨.fail "Forbidden: Admin access required" 403, st, 0⟩
        else
          match findFlagByOrgFeature st.orgFeatures organizationId featureId with
          | none => ⟨.fail "Organization feature not found" 404, st, 0⟩
          | some existing =>
            let st' :=
              { st with
                orgFeatures :=
                  st.orgFeatures.filter (fun fl => !(fl.id == existing.id)) }
            let result : ActionResult SuccessObj := ⟨some ⟨true⟩, none⟩
            let afterResult :=
              runAfterHook hooks.after
                (result, organizationId, featureId, hookContext)
            match afterResult.error with
            | some e => ⟨.fail e.message (e.status.getD 500), st', 1⟩
            | none => ⟨.ok (afterResult.data.getD ⟨true⟩), st', 1⟩

/-- Endpoint `createRemoveFeatureFlagEndpoint` from
`src/server/endpoints/feature-flags.ts`: identical to
`removeOrganizationFeature` but on the `featureFlag` model. -/
def removeFeatureFlag (hooks : RemoveFlagHooks) (session : Option Session)
    (st : Store) (organizationId featureId : String) : EpOut DeleteRes :=
  let hookContext : HookContext := session
  let beforeResult :=
    runBeforeHook hooks.before (organizationId, featureId, hookContext)
  if beforeResult.skip then
    match beforeResult.error with
    | some e => ⟨.fail e.message (e.status.getD 400), st, 0⟩
    | none => ⟨.ok ⟨true⟩, st, 0⟩
  else
    match session with
    | none => ⟨.fail "Unauthorized" 401, st, 0⟩
    | some s =>
      match findUser st s.userId with
      | none => ⟨.fail "Forbidden: Admin access required" 403, st, 0⟩
      | some user =>
        if !(user.role == "admin") then
          ⟨.fail "Forbidden: Admin access required" 403, st, 0⟩
        else
          match findFlagByOrgFeature st.featureFlags organizationId featureId with
          | none => ⟨.fail "Feature flag not found" 404, st, 0⟩
          | some existing =>
            let st' :=
              { st with
                featureFlags :=
                  st.featureFlags.filter (fun fl => !(fl.id == existing.id)) }
            let result : ActionResult SuccessObj := ⟨some ⟨true⟩, none⟩
            let afterResult :=
              runAfterHook hooks.after
                (result, organizationId, featureId, hookContext)
            match afterResult.error with
            | some e => ⟨.fail e.message (e.status.getD 500), st', 1⟩
            | none => ⟨.ok (afterResult.data.getD ⟨true⟩), st', 1⟩

/-- The join step shared by the flag-listing endpoints: keep the flags
whose feature survived the feature query, and attach the feature. -/
def joinFlagsWithFeatures (flags : List Flag) (features : List Feature) :
    List FlagWithDetails :=
  (flags.filter (fun fl => (featureMapGet features fl.featureId).isSome)).map
    (fun fl => ⟨fl, featureMapGet features fl.featureId⟩)

/-- Endpoint `createGetOrganizationFeaturesEndpoint` from
`src/server/endpoints/organization-features.ts`: membership gate (403 for
a non-member), flags of the organization with `enabled = true`, features
with `id in …` and `active = true`, inner join. -/
def getOrganizationFeatures (hooks : GetFlagsHooks) (session : Option Session)
    (st : Store) (organizationId : String) : EpOut FlagListRes :=
  let hookContext : HookContext := session
  let beforeResult := runBeforeHook hooks.before (organizationId, hookContext)
  if beforeResult.skip then
    match beforeResult.error with
    | some e => ⟨.fail e.message (e.status.getD 400), st, 0⟩
    | none => ⟨.list (beforeResult.data.getD []), st, 0⟩
  else
    match session with
    | none => ⟨.fail "Unauthorized" 401, st, 0⟩
    | some s =>
      match findMember st organizationId s.userId with
      | none =>
          ⟨.fail "Forbidden: Not a member of this organization" 403, st, 0⟩
      | some _ =>
        let orgFeatures := st.orgFeatures.filter (fun fl =>
          fl.organizationId == organizationId && fl.enabled == true)
        let features := findManyFeatures st
          [.inS "id" (orgFeatures.map (fun fl => fl.featureId)),
           .eqB "active" true]
        let enabledFeatures := joinFlagsWithFeatures orgFeatures features
        let result : ActionResult (List FlagWithDetails) :=
          ⟨some enabledFeatures, none⟩
        let afterResult :=
          runAfterHook hooks.after (result, organizationId, hookContext)
        match afterResult.error with
        | some e => ⟨.fail e.message (e.status.getD 500), st, 0⟩
        | none => ⟨.list (afterResult.data.getD enabledFeatures), st, 0⟩

/-- Endpoint `createGetFeatureFlagsEndpoint` from
`src/server/endpoints/feature-flags.ts`: same shape as
`getOrganizationFeatures`, on the `featureFlag` model. -/
def getFeatureFlags (hooks : GetFlagsHooks) (session : Option Session)
    (st : Store) (organizationId : String) : EpOut FlagListRes :=
  let hookContext : HookContext := session
  let beforeResult := runBeforeHook hooks.before (organizationId, hookContext)
  if beforeResult.skip then
    match beforeResult.error with
    | some e => ⟨.fail e.message (e.status.getD 400), st, 0⟩
    | none => ⟨.list (beforeResult.data.getD []), st, 0⟩
  else
    match session with
    | none => ⟨.fail "Unauthorized" 401, st, 0⟩
    | some s =>
      match findMember st organizationId s.userId with
      | none =>
          ⟨.fail "Forbidden: Not a member of this organization" 403, st, 0⟩
      | some _ =>
        let featureFlags := st.featureFlags.filter (fun fl =>
          fl.organizationId == organizationId && fl.enabled == true)
        let features := findManyFeatures st
          [.inS "id" (featureFlags.map (fun fl => fl.featureId)),
           .eqB "active" true]
        let enabledFeatureFlags := joinFlagsWithFeatures featureFlags features
        let result : ActionResult (List FlagWithDetails) :=
          ⟨some enabledFeatureFlags, none⟩
        let afterResult :=
          runAfterHook hooks.after (result, organizationId, hookContext)
        match afterResult.error with
        | some e => ⟨.fail e.message (e.status.getD 500), st, 0⟩
        | none => ⟨.list (afterResult.data.getD enabledFeatureFlags), st, 0⟩

/-- Endpoint `createGetAvailableFeaturesEndpoint` from
`src/server/endpoints/organization-features.ts` (the variant the plugin
wires up): no active organization or a failed membership check returns
`{data: []}`; the flags are filtered by `enabled = true`, and the feature
query filters the feature model on the field `"enabled"` — which the
feature schema does not have (`active` is the global switch there). -/
def getAvailableFeatures (hooks : GetAvailableHooks) (session : Option Session)
    (st : Store) : EpOut FlagListRes :=
  let hookContext : HookContext := session
  let beforeResult := runBeforeHook hooks.before hookContext
  if beforeResult.skip then
    match beforeResult.error with
    | some e => ⟨.fail e.message (e.status.getD 400), st, 0⟩
    | none => ⟨.list (beforeResult.data.getD []), st, 0⟩
  else
    match session with
    | none => ⟨.fail "Unauthorized" 401, st, 0⟩
    | some s =>
      match s.activeOrganizationId with
      | none => ⟨.list [], st, 0⟩
      | some activeOrganizationId =>
        match findMember st activeOrganizationId s.userId with
        | none => ⟨.list [], st, 0⟩
        | some _ =>
          let orgFeatures := st.orgFeatures.filter (fun fl =>
            fl.organizationId == activeOrganizationId && fl.enabled == true)
          let featureIds := orgFeatures.map (fun fl => fl.featureId)
          let features := findManyFeatures st
            [.inS "id" featureIds, .eqB "enabled" true]
          let enabledFeatures := joinFlagsWithFeatures orgFeatures features
          let result : ActionResult (List FlagWithDetails) :=
            ⟨some enabledFeatures, none⟩
          let afterResult := runAfterHook hooks.after (result, hookContext)
          match afterResult.error with
          | some e => ⟨.fail e.message (e.status.getD 500), st, 0⟩
          | none => ⟨.list (afterResult.data.getD enabledFeatures), st, 0⟩

/-! Concrete records used to evaluate the endpoints on closed inputs. -/

/-- A globally active feature. -/
def betaFeature : Feature := ⟨"f1", "beta", "Beta", none, true, 0, 0⟩

/-- An enabled flag for organization `o1` on `betaFeature`. -/
def betaFlag : Flag := ⟨"of1", "o1", "f1", true, 0, 0⟩

/-- A store holding the live (enabled, active) pair on both flag models,
with `u1` a member of `o1`. -/
def liveStore : Store :=
  ⟨[betaFeature], [betaFlag], [betaFlag], [], ["o1"], [⟨"o1", "u1"⟩]⟩

/-- The session of member `u1` with active organization `o1`. -/
def memberSession : Session := ⟨"u1", some "o1"⟩

/-- A store with no rows at all. -/
def emptyStore : Store := ⟨[], [], [], [], [], []⟩

/-- A before-hook for `deleteFeature` that short-circuits with
`{skip: true, data: {success: false}}`. -/
def skipFalseDeleteHooks : DeleteFeatureHooks :=
  { before := some (fun _ => { data := some ⟨false⟩, skip := some true }) }

/-- A store knowing organization `o1` but having no member rows. -/
def noMemberStore : Store := ⟨[], [], [], [], ["o1"], []⟩

/-- A session of a user who is not a member of `o1`. -/
def strangerSession : Session := ⟨"u9", some "o1"⟩

/-- A store whose only user `u1` is an admin. -/
def adminStore : Store := ⟨[], [], [], [⟨"u1", "admin"⟩], ["o1"], [⟨"o1", "u1"⟩]⟩

/-- The admin's session. -/
def adminSession : Session := ⟨"u1", some "o1"⟩

/-- A feature with an old description, to be partially updated. -/
def oldFeature : Feature := ⟨"f1", "beta", "Beta", some "old", true, 0, 0⟩

/-- A store holding `oldFeature` and the admin user `u1`. -/
def updateStore : Store :=
  ⟨[oldFeature], [], [], [⟨"u1", "admin"⟩], ["o1"], [⟨"o1", "u1"⟩]⟩

/-- A before-hook for `createFeature` that short-circuits with data. -/
def c8SkipHooks : CreateFeatureHooks :=
  { before := some (fun _ => { data := some ⟨"beta", "Beta", none, none⟩,
                               skip := some true }) }

/-- A store ready for a first `setOrganizationFeature` call: active
feature `f1`, organization `o1`, admin `u1`, no flag rows yet. -/
def setupStore : Store :=
  ⟨[betaFeature], [], [], [⟨"u1", "admin"⟩], ["o1"], [⟨"o1", "u1"⟩]⟩

/-- A store holding the `(o1, f1)` flag on both flag models, with the
admin user `u1`. -/
def adminFlagStore : Store :=
  ⟨[betaFeature], [betaFlag], [betaFlag], [⟨"u1", "admin"⟩], ["o1"],
   [⟨"o1", "u1"⟩]⟩

/-- The advisory data-model invariant: at most one flag row per
(principal, feature) pair. -/
def atMostOneFlagFor (flags : List Flag) (orgId fid : String) : Prop :=
  (flags.filter (fun fl =>
    fl.organizationId == orgId && fl.featureId == fid)).length ≤ 1

instance (flags : List Flag) (orgId fid : String) :
    Decidable (atMostOneFlagFor flags orgId fid) := by
  unfold atMostOneFlagFor
  infer_instance

/-- C1: with feature `f1` active and the `(o1, f1)` flag enabled, the two
by-organization reads list the joined row, but `getAvailableFeatures` —
whose feature query filters on the nonexistent feature column `"enabled"`
instead of `"active"` — returns the empty list, dropping a live flag. -/
theorem c1_available_features_read_drops_live_flag :
    getOrganizationFeatures {} (some memberSession) liveStore "o1" =
      ⟨.list [⟨betaFlag, some betaFeature⟩], liveStore, 0⟩ ∧
    getFeatureFlags {} (some memberSession) liveStore "o1" =
      ⟨.list [⟨betaFlag, some betaFeature⟩], liveStore, 0⟩ ∧
    getAvailableFeatures {} (some memberSession) liveStore =
      ⟨.list [], liveStore, 0⟩ := by
  refine ⟨?_, ?_, ?_⟩ <;> rfl

/-- C2 counterexample: a before-hook returns `{skip: true, data: X}` with
`X = {success: false}`, yet `deleteFeature` responds `{success: true}`,
not `X` (no store write happens, but the claimed result equality fails). -/
theorem c2_counterexample_delete_ignores_hook_data :
    (deleteFeature skipFalseDeleteHooks none emptyStore "f1").res = .ok ⟨true⟩ ∧
    (deleteFeature skipFalseDeleteHooks none emptyStore "f1").res ≠ .ok ⟨false⟩ ∧
    (deleteFeature skipFalseDeleteHooks none emptyStore "f1").writes = 0 := by
  refine ⟨rfl, by decide, rfl⟩

/-- C2 (amended): when the registered before-hook returns
`{skip: true, data: X}` with no error, no store write is performed and the
store is unchanged for every operation; the result is `X` for the
create/list/update/toggle/set-flag/listing operations, while the
delete-feature and remove-flag operations respond `{success: true}`
regardless of `X`. -/
theorem c2_amended_before_skip_short_circuit :
    ∀ (session : Option Session) (st : Store),
      (∀ (x : CreateFeatureInput) (newId : String) (now : Nat)
          (body : CreateFeatureInput),
        createFeature { before := some (fun _ => { data := some x, skip := some true }) }
          session st newId now body = ⟨.skipData (some x), st, 0⟩) ∧
      (∀ (x : List Feature),
        listFeatures { before := some (fun _ => { data := some x, skip := some true }) }
          session st = ⟨.list x, st, 0⟩) ∧
      (∀ (x : UpdateFeatureInput) (fid : String) (now : Nat)
          (body : UpdateFeatureInput),
        updateFeature { before := some (fun _ => { data := some x, skip := some true }) }
          session st fid now body = ⟨.skipData (some x), st, 0⟩) ∧
      (∀ (x : SuccessObj) (fid : String),
        deleteFeature { before := some (fun _ => { data := some x, skip := some true }) }
          session st fid = ⟨.ok ⟨true⟩, st, 0⟩) ∧
      (∀ (x : Bool) (fid : String) (now : Nat) (b : Bool),
        toggleFeature { before := some (fun _ => { data := some x, skip := some true }) }
          session st fid now b = ⟨.skipData (some x), st, 0⟩) ∧
      (∀ (x : SetOrganizationFeatureInput) (orgId fid newId : String)
          (now : Nat) (body : SetOrganizationFeatureInput),
        setOrganizationFeature { before := some (fun _ => { data := some x, skip := some true }) }
          session st orgId fid newId now body = ⟨.skipData (some x), st, 0⟩) ∧
      (∀ (x : SuccessObj) (orgId fid : String),
        removeOrganizationFeature { before := some (fun _ => { data := some x, skip := some true }) }
          session st orgId fid = ⟨.ok ⟨true⟩, st, 0⟩) ∧
      (∀ (x : SuccessObj) (orgId fid : String),
        removeFeatureFlag { before := some (fun _ => { data := some x, skip := some true }) }
          session st orgId fid = ⟨.ok ⟨true⟩, st, 0⟩) ∧
      (∀ (x : List FlagWithDetails) (orgId : String),
        getOrganizationFeatures { before := some (fun _ => { data := some x, skip := some true }) }
          session st orgId = ⟨.list x, st, 0⟩) ∧
      (∀ (x : List FlagWithDetails) (orgId : String),
        getFeatureFlags { before := some (fun _ => { data := some x, skip := some true }) }
          session st orgId = ⟨.list x, st, 0⟩) ∧
      (∀ (x : List FlagWithDetails),
        getAvailableFeatures { before := some (fun _ => { data := some x, skip := some true }) }
          session st = ⟨.list x, st, 0⟩) := by
  intro session st
  refine ⟨?_, ?_, ?_, ?_, ?_, ?_, ?_, ?_, ?_, ?_, ?_⟩ <;> intros <;> rfl

/-- C9: an authenticated caller whose membership probe fails gets the
empty list from `getAvailableFeatures`, but a Forbidden error from the
`getFeatureFlags` read of the same data. -/
theorem c9_nonmember_empty_vs_forbidden (s : Session) (st : Store)
    (orgId : String) (hactive : s.activeOrganizationId = some orgId)
    (hmem : findMember st orgId s.userId = none) :
    getAvailableFeatures {} (some s) st = ⟨.list [], st, 0⟩ ∧
    getFeatureFlags {} (some s) st orgId =
      ⟨.fail "Forbidden: Not a member of this organization" 403, st, 0⟩ := by
  constructor
  · simp [getAvailableFeatures, runBeforeHook, hactive, hmem]
  · simp [getFeatureFlags, runBeforeHook, hmem]

/-- Witness for C9 at a concrete non-member caller. -/
theorem c9_witness :
    getAvailableFeatures {} (some strangerSession) noMemberStore =
      ⟨.list [], noMemberStore, 0⟩ ∧
    getFeatureFlags {} (some strangerSession) noMemberStore "o1" =
      ⟨.fail "Forbidden: Not a member of this organization" 403,
        noMemberStore, 0⟩ :=
  c9_nonmember_empty_vs_forbidden strangerSession noMemberStore "o1" rfl rfl

/-- C10: a successful `createFeature` defaults an omitted `active` to
`true`, and stores `null` for an omitted or empty-string `description`. -/
theorem c10_create_feature_defaults (s : Session) (st : Store)
    (newId : String) (now : Nat) (body : CreateFeatureInput) (u : UserRec)
    (hu : findUser st s.userId = some u)
    (hrole : roleIncludesAdmin u.role = true)
    (hname : (body.name == "") = false)
    (hdisp : (body.displayName == "") = false)
    (hdup : findOneFeature st [.eqS "name" body.name] = none) :
    (createFeature {} (some s) st newId now body).res =
      .feature (featureFromInput newId now body) ∧
    (body.active = none → (featureFromInput newId now body).active = true) ∧
    ((body.description = none ∨ body.description = some "") →
      (featureFromInput newId now body).description = none) := by
  refine ⟨?_, ?_, ?_⟩
  · simp [createFeature, runBeforeHook, runAfterHook, hu, hrole, hname, hdisp, hdup]
  · intro h; simp [featureFromInput, h]
  · rintro (h | h) <;> simp [featureFromInput, h]

/-- Witness for C10: creating `beta` with empty description and omitted
`active` yields `active = true` and `description = null`. -/
theorem c10_witness :
    (createFeature {} (some adminSession) adminStore "f1" 7
        ⟨"beta", "Beta", some "", none⟩).res =
      .feature ⟨"f1", "beta", "Beta", none, true, 7, 7⟩ :=
  ((c10_create_feature_defaults adminSession adminStore "f1" 7
      ⟨"beta", "Beta", some "", none⟩ ⟨"u1", "admin"⟩
      rfl (by decide) rfl rfl rfl).1).trans (by decide)

/-- C5: `runBeforeHook` is the pass-through `{skip: false}` without a
hook; a hook error forces `skip = true` and aborts the operation with the
error's status (default 400); otherwise `skip` defaults to `false` and a
provided `data` replaces the original input of the main action. -/
theorem c5_before_hook_contract :
    (∀ (A T : Type) (args : A),
      runBeforeHook (A := A) (T := T) none args = { skip := false }) ∧
    (∀ (A T : Type) (h : A → BeforeHookResult T) (args : A) (e : HookError),
      (h args).error = some e →
      runBeforeHook (some h) args = { skip := true, error := some e }) ∧
    (∀ (A T : Type) (h : A → BeforeHookResult T) (args : A),
      (h args).error = none →
      runBeforeHook (some h) args =
        { skip := (h args).skip.getD false, data := (h args).data }) ∧
    (∀ (hb : CreateFeatureInput × HookContext → BeforeHookResult CreateFeatureInput)
        (session : Option Session) (st : Store) (newId : String) (now : Nat)
        (body : CreateFeatureInput) (e : HookError),
      (hb (body, session)).error = some e →
      createFeature { before := some hb } session st newId now body =
        ⟨.fail e.message (e.status.getD 400), st, 0⟩) ∧
    (∀ (hb : CreateFeatureInput × HookContext → BeforeHookResult CreateFeatureInput)
        (s : Session) (st : Store) (newId : String) (now : Nat)
        (body nb : CreateFeatureInput) (u : UserRec),
      hb (body, some s) = { data := some nb } →
      findUser st s.userId = some u →
      roleIncludesAdmin u.role = true →
      (nb.name == "") = false →
      (nb.displayName == "") = false →
      findOneFeature st [.eqS "name" nb.name] = none →
      createFeature { before := some hb } (some s) st newId now body =
        ⟨.feature (featureFromInput newId now nb),
         { st with features := st.features ++ [featureFromInput newId now nb] },
         1⟩) := by
  refine ⟨fun A T args => rfl, ?_, ?_, ?_, ?_⟩
  · intro A T h args e he
    simp [runBeforeHook, he]
  · intro A T h args he
    simp [runBeforeHook, he]
  · intro hb session st newId now body e he
    simp [createFeature, runBeforeHook, he]
  · intro hb s st newId now body nb u hhb hu hrole hn hd hdup
    simp [createFeature, runBeforeHook, runAfterHook, hhb, hu, hrole, hn, hd, hdup]

/-- Witness for C5: a hook error aborts `createFeature` with default
status 400, and a hook-rewritten input is what gets persisted. -/
theorem c5_witness :
    createFeature { before := some (fun _ => { error := some ⟨"nope", none⟩ }) }
        (some adminSession) adminStore "f1" 0 ⟨"x", "X", none, none⟩ =
      ⟨.fail "nope" 400, adminStore, 0⟩ ∧
    createFeature { before := some (fun _ => { data := some ⟨"beta", "Beta", none, none⟩ }) }
        (some adminSession) adminStore "f1" 7 ⟨"x", "X", none, none⟩ =
      ⟨.feature ⟨"f1", "beta", "Beta", none, true, 7, 7⟩,
       { adminStore with features := [⟨"f1", "beta", "Beta", none, true, 7, 7⟩] },
       1⟩ :=
  ⟨c5_before_hook_contract.2.2.2.1 _ (some adminSession) adminStore "f1" 0
      ⟨"x", "X", none, none⟩ ⟨"nope", none⟩ rfl,
   c5_before_hook_contract.2.2.2.2 _ adminSession adminStore "f1" 7
      ⟨"x", "X", none, none⟩ ⟨"beta", "Beta", none, none⟩ ⟨"u1", "admin"⟩
      rfl rfl (by decide) rfl rfl rfl⟩

/-- C7: `updateFeature` writes exactly the fields present in the request
(`null` and `false` included), keeps omitted fields at their prior
values, and the store's `updatedAt` advances. -/
theorem c7_update_feature_partial_merge (s : Session) (st : Store)
    (featureId : String) (now : Nat) (body : UpdateFeatureInput)
    (u : UserRec) (f0 : Feature)
    (hu : findUser st s.userId = some u)
    (hrole : roleIncludesAdmin u.role = true)
    (hf : findOneFeature st [.eqS "id" featureId] = some f0) :
    (updateFeature {} (some s) st featureId now body).res =
      .feature (applyFeatureUpdate now body f0) ∧
    (body.displayName = none →
      (applyFeatureUpdate now body f0).displayName = f0.displayName) ∧
    (∀ d, body.displayName = some d →
      (applyFeatureUpdate now body f0).displayName = d) ∧
    (body.description = none →
      (applyFeatureUpdate now body f0).description = f0.description) ∧
    (∀ d, body.description = some d →
      (applyFeatureUpdate now body f0).description = d) ∧
    (body.active = none → (applyFeatureUpdate now body f0).active = f0.active) ∧
    (∀ b, body.active = some b → (applyFeatureUpdate now body f0).active = b) ∧
    (f0.updatedAt < now → f0.updatedAt < (applyFeatureUpdate now body f0).updatedAt) := by
  refine ⟨?_, ?_, ?_, ?_, ?_, ?_, ?_, ?_⟩
  · simp [updateFeature, runBeforeHook, runAfterHook, hu, hrole, hf]
  · intro h; simp [applyFeatureUpdate, h]
  · intro d h; simp [applyFeatureUpdate, h]
  · intro h; simp [applyFeatureUpdate, h]
  · intro d h; simp [applyFeatureUpdate, h]
  · intro h; simp [applyFeatureUpdate, h]
  · intro b h; simp [applyFeatureUpdate, h]
  · intro h; simpa [applyFeatureUpdate] using h

/-- Witness for C7: updating only `description` leaves `displayName` and
`active` unchanged and advances `updatedAt`. -/
theorem c7_witness :
    (updateFeature {} (some adminSession) updateStore "f1" 9
        { description := some (some "x") }).res =
      .feature ⟨"f1", "beta", "Beta", some "x", true, 0, 9⟩ :=
  ((c7_update_feature_partial_merge adminSession updateStore "f1" 9
      { description := some (some "x") } ⟨"u1", "admin"⟩ oldFeature
      rfl (by decide) rfl).1).trans (by decide)

/-- C8 counterexample: with no session, a before-hook that short-circuits
still runs first and its data is returned — the caller does not receive
the Unauthorized error, so the session check is not the first processing
step for every hook configuration. -/
theorem c8_counterexample_hook_runs_before_session_check :
    (createFeature c8SkipHooks none emptyStore "f1" 0 ⟨"x", "X", none, none⟩).res =
      .skipData (some ⟨"beta", "Beta", none, none⟩) ∧
    (createFeature c8SkipHooks none emptyStore "f1" 0 ⟨"x", "X", none, none⟩).res ≠
      .fail "Unauthorized" 401 :=
  ⟨rfl, by decide⟩

/-- C8 (amended): the no-session check precedes the role lookup and every
store access, but follows the before-hook: whenever the before-hook does
not short-circuit, a sessionless caller receives Unauthorized (401) from
every operation, with no store access or write. -/
theorem c8_amended_session_checked_before_main_logic :
    ∀ (st : Store),
      (∀ (hooks : CreateFeatureHooks) (newId : String) (now : Nat)
          (body : CreateFeatureInput),
        (runBeforeHook hooks.before (body, (none : HookContext))).skip = false →
        createFeature hooks none st newId now body =
          ⟨.fail "Unauthorized" 401, st, 0⟩) ∧
      (∀ (hooks : ListFeaturesHooks),
        (runBeforeHook hooks.before (none : HookContext)).skip = false →
        listFeatures hooks none st = ⟨.fail "Unauthorized" 401, st, 0⟩) ∧
      (∀ (hooks : UpdateFeatureHooks) (fid : String) (now : Nat)
          (body : UpdateFeatureInput),
        (runBeforeHook hooks.before (fid, body, (none : HookContext))).skip = false →
        updateFeature hooks none st fid now body =
          ⟨.fail "Unauthorized" 401, st, 0⟩) ∧
      (∀ (hooks : DeleteFeatureHooks) (fid : String),
        (runBeforeHook hooks.before (fid, (none : HookContext))).skip = false →
        deleteFeature hooks none st fid = ⟨.fail "Unauthorized" 401, st, 0⟩) ∧
      (∀ (hooks : ToggleFeatureHooks) (fid : String) (now : Nat) (b : Bool),
        (runBeforeHook hooks.before (fid, b, (none : HookContext))).skip = false →
        toggleFeature hooks none st fid now b =
          ⟨.fail "Unauthorized" 401, st, 0⟩) ∧
      (∀ (hooks : SetOrgFeatureHooks) (orgId fid newId : String) (now : Nat)
          (body : SetOrganizationFeatureInput),
        (runBeforeHook hooks.before (orgId, fid, body, (none : HookContext))).skip = false →
        setOrganizationFeature hooks none st orgId fid newId now body =
          ⟨.fail "Unauthorized" 401, st, 0⟩) ∧
      (∀ (hooks : RemoveFlagHooks) (orgId fid : String),
        (runBeforeHook hooks.before (orgId, fid, (none : HookContext))).skip = false →
        removeOrganizationFeature hooks none st orgId fid =
          ⟨.fail "Unauthorized" 401, st, 0⟩) ∧
      (∀ (hooks : RemoveFlagHooks) (orgId fid : String),
        (runBeforeHook hooks.before (orgId, fid, (none : HookContext))).skip = false →
        removeFeatureFlag hooks none st orgId fid =
          ⟨.fail "Unauthorized" 401, st, 0⟩) ∧
      (∀ (hooks : GetFlagsHooks) (orgId : String),
        (runBeforeHook hooks.before (orgId, (none : HookContext))).skip = false →
        getOrganizationFeatures hooks none st orgId =
          ⟨.fail "Unauthorized" 401, st, 0⟩) ∧
      (∀ (hooks : GetFlagsHooks) (orgId : String),
        (runBeforeHook hooks.before (orgId, (none : HookContext))).skip = false →
        getFeatureFlags hooks none st orgId =
          ⟨.fail "Unauthorized" 401, st, 0⟩) ∧
      (∀ (hooks : GetAvailableHooks),
        (runBeforeHook hooks.before (none : HookContext)).skip = false →
        getAvailableFeatures hooks none st = ⟨.fail "Unauthorized" 401, st, 0⟩) := by
  intro st
  refine ⟨?_, ?_, ?_, ?_, ?_, ?_, ?_, ?_, ?_, ?_, ?_⟩
  · intro hooks newId now body hskip
    simp [createFeature, hskip]
  · intro hooks hskip
    simp [listFeatures, hskip]
  · intro hooks fid now body hskip
    simp [updateFeature, hskip]
  · intro hooks fid hskip
    simp [deleteFeature, hskip]
  · intro hooks fid now b hskip
    simp [toggleFeature, hskip]
  · intro hooks orgId fid newId now body hskip
    simp [setOrganizationFeature, hskip]
  · intro hooks orgId fid hskip
    simp [removeOrganizationFeature, hskip]
  · intro hooks orgId fid hskip
    simp [removeFeatureFlag, hskip]
  · intro hooks orgId hskip
    simp [getOrganizationFeatures, hskip]
  · intro hooks orgId hskip
    simp [getFeatureFlags, hskip]
  · intro hooks hskip
    simp [getAvailableFeatures, hskip]

/-- Witness for C8 (amended): with no hooks and no session, `createFeature`
answers Unauthorized 401 without touching the store. -/
theorem c8_witness :
    createFeature {} none emptyStore "f1" 0 ⟨"x", "X", none, none⟩ =
      ⟨.fail "Unauthorized" 401, emptyStore, 0⟩ :=
  (c8_amended_session_checked_before_main_logic emptyStore).1 {} "f1" 0
    ⟨"x", "X", none, none⟩ rfl

/-- Replacing only the `organizationFeature` table leaves feature lookups
unchanged. -/
theorem findOneFeature_set_orgFeatures (st : Store) (l : List Flag)
    (wh : List WhereClause) :
    findOneFeature { st with orgFeatures := l } wh = findOneFeature st wh := rfl

/-- Replacing only the `organizationFeature` table leaves user lookups
unchanged. -/
theorem findUser_set_orgFeatures (st : Store) (l : List Flag) (uid : String) :
    findUser { st with orgFeatures := l } uid = findUser st uid := rfl

/-- Replacing only the `organizationFeature` table leaves organization
lookups unchanged. -/
theorem findOrganization_set_orgFeatures (st : Store) (l : List Flag)
    (o : String) :
    findOrganization { st with orgFeatures := l } o =
      findOrganization st o := rfl

/-- Replacing only the `featureFlag` table leaves user lookups
unchanged. -/
theorem findUser_set_featureFlags (st : Store) (l : List Flag) (uid : String) :
    findUser { st with featureFlags := l } uid = findUser st uid := rfl

/-- A filtered list whose head is `a` and whose length is at most one is
exactly `[a]`. -/
theorem head_of_filter_unique {α : Type} {l : List α} {p : α → Bool} {a : α}
    (h : (l.filter p).head? = some a) (hlen : (l.filter p).length ≤ 1) :
    l.filter p = [a] := by
  cases hl : l.filter p with
  | nil => rw [hl] at h; cases h
  | cons x xs =>
    rw [hl] at h hlen
    obtain rfl : x = a := by simpa using h
    cases xs with
    | nil => rfl
    | cons y ys =>
        simp [List.length_cons] at hlen

/-- After deleting (by internal id) the unique flag found for a pair, the
compound-key probe for that pair finds nothing. -/
theorem findFlag_delete_self_none {flags : List Flag} {orgId fid : String}
    {fl : Flag}
    (h : findFlagByOrgFeature flags orgId fid = some fl)
    (huniq : atMostOneFlagFor flags orgId fid) :
    findFlagByOrgFeature (flags.filter (fun x => !(x.id == fl.id))) orgId fid
      = none := by
  unfold findFlagByOrgFeature at h ⊢
  unfold atMostOneFlagFor at huniq
  have hsing := head_of_filter_unique h huniq
  rw [List.head?_eq_none_iff, List.filter_filter, List.filter_eq_nil_iff]
  intro x hx hpq
  rw [Bool.and_eq_true] at hpq
  obtain ⟨hm, hid⟩ := hpq
  have hxmem : x ∈ flags.filter (fun y =>
      y.organizationId == orgId && y.featureId == fid) :=
    List.mem_filter.mpr ⟨hx, hm⟩
  rw [hsing] at hxmem
  simp at hxmem
  subst hxmem
  simp at hid

/-- Appending a matching flag to a table with no match for the pair makes
the compound-key probe find exactly the appended flag. -/
theorem findFlag_append_of_none {flags : List Flag} {orgId fid : String}
    (h : findFlagByOrgFeature flags orgId fid = none) (x : Flag)
    (hx : (x.organizationId == orgId && x.featureId == fid) = true) :
    findFlagByOrgFeature (flags ++ [x]) orgId fid = some x := by
  unfold findFlagByOrgFeature at h ⊢
  rw [List.head?_eq_none_iff] at h
  rw [List.filter_append, h, List.nil_append]
  simp [List.filter, hx]

/-- C3: for every operation with a registered after-hook, once the main
action has succeeded the final result follows the precedence after-hook
error (with its status, defaulting to 500) over after-hook data over the
action's own result.  Each clause relates the hook-free run (whose
success identifies the action's original result) to the run with the
registered after-hook; for `getAvailableFeatures` the two early
empty-list returns (no active organization, non-member) are excluded by
hypothesis, since they answer before the after-hook is reached. -/
theorem c3_after_hook_precedence :
    (∀ (st : Store) (session : Option Session) (newId : String) (now : Nat)
        (body : CreateFeatureInput) (orig : Feature) (r : AfterHookResult Feature),
      (createFeature {} session st newId now body).res = .feature orig →
      (∀ e, r.error = some e →
        (createFeature { after := some (fun _ => r) } session st newId now
            body).res = .fail e.message (e.status.getD 500)) ∧
      (∀ d, r.error = none → r.data = some d →
        (createFeature { after := some (fun _ => r) } session st newId now
            body).res = .feature d) ∧
      (r.error = none → r.data = none →
        (createFeature { after := some (fun _ => r) } session st newId now
            body).res = .feature orig)) ∧
    (∀ (st : Store) (session : Option Session) (orig : List Feature)
        (r : AfterHookResult (List Feature)),
      (listFeatures {} session st).res = .list orig →
      (∀ e, r.error = some e →
        (listFeatures { after := some (fun _ => r) } session st).res =
          .fail e.message (e.status.getD 500)) ∧
      (∀ d, r.error = none → r.data = some d →
        (listFeatures { after := some (fun _ => r) } session st).res = .list d) ∧
      (r.error = none → r.data = none →
        (listFeatures { after := some (fun _ => r) } session st).res =
          .list orig)) ∧
    (∀ (st : Store) (session : Option Session) (fid : String) (now : Nat)
        (body : UpdateFeatureInput) (orig : Feature) (r : AfterHookResult Feature),
      (updateFeature {} session st fid now body).res = .feature orig →
      (∀ e, r.error = some e →
        (updateFeature { after := some (fun _ => r) } session st fid now
            body).res = .fail e.message (e.status.getD 500)) ∧
      (∀ d, r.error = none → r.data = some d →
        (updateFeature { after := some (fun _ => r) } session st fid now
            body).res = .feature d) ∧
      (r.error = none → r.data = none →
        (updateFeature { after := some (fun _ => r) } session st fid now
            body).res = .feature orig)) ∧
    (∀ (st : Store) (session : Option Session) (fid : String)
        (orig : SuccessObj) (r : AfterHookResult SuccessObj),
      (deleteFeature {} session st fid).res = .ok orig →
      (∀ e, r.error = some e →
        (deleteFeature { after := some (fun _ => r) } session st fid).res =
          .fail e.message (e.status.getD 500)) ∧
      (∀ d, r.error = none → r.data = some d →
        (deleteFeature { after := some (fun _ => r) } session st fid).res =
          .ok d) ∧
      (r.error = none → r.data = none →
        (deleteFeature { after := some (fun _ => r) } session st fid).res =
          .ok orig)) ∧
    (∀ (st : Store) (session : Option Session) (fid : String) (now : Nat)
        (b : Bool) (orig : Feature) (r : AfterHookResult Feature),
      (toggleFeature {} session st fid now b).res = .feature orig →
      (∀ e, r.error = some e →
        (toggleFeature { after := some (fun _ => r) } session st fid now
            b).res = .fail e.message (e.status.getD 500)) ∧
      (∀ d, r.error = none → r.data = some d →
        (toggleFeature { after := some (fun _ => r) } session st fid now
            b).res = .feature d) ∧
      (r.error = none → r.data = none →
        (toggleFeature { after := some (fun _ => r) } session st fid now
            b).res = .feature orig)) ∧
    (∀ (st : Store) (session : Option Session) (orgId fid newId : String)
        (now : Nat) (body : SetOrganizationFeatureInput)
        (orig : FlagWithDetails) (r : AfterHookResult FlagWithDetails),
      (setOrganizationFeature {} session st orgId fid newId now body).res =
        .ok orig →
      (∀ e, r.error = some e →
        (setOrganizationFeature { after := some (fun _ => r) } session st
            orgId fid newId now body).res =
          .fail e.message (e.status.getD 500)) ∧
      (∀ d, r.error = none → r.data = some d →
        (setOrganizationFeature { after := some (fun _ => r) } session st
            orgId fid newId now body).res = .ok d) ∧
      (r.error = none → r.data = none →
        (setOrganizationFeature { after := some (fun _ => r) } session st
            orgId fid newId now body).res = .ok orig)) ∧
    (∀ (st : Store) (session : Option Session) (orgId fid : String)
        (orig : SuccessObj) (r : AfterHookResult SuccessObj),
      (removeOrganizationFeature {} session st orgId fid).res = .ok orig →
      (∀ e, r.error = some e →
        (removeOrganizationFeature { after := some (fun _ => r) } session st
            orgId fid).res = .fail e.message (e.status.getD 500)) ∧
      (∀ d, r.error = none → r.data = some d →
        (removeOrganizationFeature { after := some (fun _ => r) } session st
            orgId fid).res = .ok d) ∧
      (r.error = none → r.data = none →
        (removeOrganizationFeature { after := some (fun _ => r) } session st
            orgId fid).res = .ok orig)) ∧
    (∀ (st : Store) (session : Option Session) (orgId fid : String)
        (orig : SuccessObj) (r : AfterHookResult SuccessObj),
      (removeFeatureFlag {} session st orgId fid).res = .ok orig →
      (∀ e, r.error = some e →
        (removeFeatureFlag { after := some (fun _ => r) } session st
            orgId fid).res = .fail e.message (e.status.getD 500)) ∧
      (∀ d, r.error = none → r.data = some d →
        (removeFeatureFlag { after := some (fun _ => r) } session st
            orgId fid).res = .ok d) ∧
      (r.error = none → r.data = none →
        (removeFeatureFlag { after := some (fun _ => r) } session st
            orgId fid).res = .ok orig)) ∧
    (∀ (st : Store) (session : Option Session) (orgId : String)
        (orig : List FlagWithDetails)
        (r : AfterHookResult (List FlagWithDetails)),
      (getOrganizationFeatures {} session st orgId).res = .list orig →
      (∀ e, r.error = some e →
        (getOrganizationFeatures { after := some (fun _ => r) } session st
            orgId).res = .fail e.message (e.status.getD 500)) ∧
      (∀ d, r.error = none → r.data = some d →
        (getOrganizationFeatures { after := some (fun _ => r) } session st
            orgId).res = .list d) ∧
      (r.error = none → r.data = none →
        (getOrganizationFeatures { after := some (fun _ => r) } session st
            orgId).res = .list orig)) ∧
    (∀ (st : Store) (session : Option Session) (orgId : String)
        (orig : List FlagWithDetails)
        (r : AfterHookResult (List FlagWithDetails)),
      (getFeatureFlags {} session st orgId).res = .list orig →
      (∀ e, r.error = some e →
        (getFeatureFlags { after := some (fun _ => r) } session st
            orgId).res = .fail e.message (e.status.getD 500)) ∧
      (∀ d, r.error = none → r.data = some d →
        (getFeatureFlags { after := some (fun _ => r) } session st
            orgId).res = .list d) ∧
      (r.error = none → r.data = none →
        (getFeatureFlags { after := some (fun _ => r) } session st
            orgId).res = .list orig)) ∧
    (∀ (st : Store) (s : Session) (aoid : String) (m : MemberRec)
        (orig : List FlagWithDetails)
        (r : AfterHookResult (List FlagWithDetails)),
      s.activeOrganizationId = some aoid →
      findMember st aoid s.userId = some m →
      (getAvailableFeatures {} (some s) st).res = .list orig →
      (∀ e, r.error = some e →
        (getAvailableFeatures { after := some (fun _ => r) } (some s) st).res =
          .fail e.message (e.status.getD 500)) ∧
      (∀ d, r.error = none → r.data = some d →
        (getAvailableFeatures { after := some (fun _ => r) } (some s) st).res =
          .list d) ∧
      (r.error = none → r.data = none →
        (getAvailableFeatures { after := some (fun _ => r) } (some s) st).res =
          .list orig)) := by
  refine ⟨?_, ?_, ?_, ?_, ?_, ?_, ?_, ?_, ?_, ?_, ?_⟩
  · intro st session newId now body orig r hbase
    unfold createFeature at hbase
    refine ⟨fun e he => ?_, fun d he hd => ?_, fun he hd => ?_⟩ <;>
      (unfold createFeature
       all_goals (try simp_all [runBeforeHook, runAfterHook])
       iterate 12 (all_goals (try split))
       all_goals simp_all [runBeforeHook, runAfterHook])
  · intro st session orig r hbase
    unfold listFeatures at hbase
    refine ⟨fun e he => ?_, fun d he hd => ?_, fun he hd => ?_⟩ <;>
      (unfold listFeatures
       all_goals (try simp_all [runBeforeHook, runAfterHook])
       iterate 12 (all_goals (try split))
       all_goals simp_all [runBeforeHook, runAfterHook])
  · intro st session fid now body orig r hbase
    unfold updateFeature at hbase
    refine ⟨fun e he => ?_, fun d he hd => ?_, fun he hd => ?_⟩ <;>
      (unfold updateFeature
       all_goals (try simp_all [runBeforeHook, runAfterHook])
       iterate 12 (all_goals (try split))
       all_goals simp_all [runBeforeHook, runAfterHook])
  · intro st session fid orig r hbase
    unfold deleteFeature at hbase
    refine ⟨fun e he => ?_, fun d he hd => ?_, fun he hd => ?_⟩ <;>
      (unfold deleteFeature
       all_goals (try simp_all [runBeforeHook, runAfterHook])
       iterate 12 (all_goals (try split))
       all_goals simp_all [runBeforeHook, runAfterHook])
  · intro st session fid now b orig r hbase
    unfold toggleFeature at hbase
    refine ⟨fun e he => ?_, fun d he hd => ?_, fun he hd => ?_⟩ <;>
      (unfold toggleFeature
       all_goals (try simp_all [runBeforeHook, runAfterHook])
       iterate 12 (all_goals (try split))
       all_goals simp_all [runBeforeHook, runAfterHook])
  · intro st session orgId fid newId now body orig r hbase
    unfold setOrganizationFeature at hbase
    refine ⟨fun e he => ?_, fun d he hd => ?_, fun he hd => ?_⟩ <;>
      (unfold setOrganizationFeature
       all_goals (try simp_all [runBeforeHook, runAfterHook])
       iterate 12 (all_goals (try split))
       all_goals simp_all [runBeforeHook, runAfterHook])
  · intro st session orgId fid orig r hbase
    unfold removeOrganizationFeature at hbase
    refine ⟨fun e he => ?_, fun d he hd => ?_, fun he hd => ?_⟩ <;>
      (unfold removeOrganizationFeature
       all_goals (try simp_all [runBeforeHook, runAfterHook])
       iterate 12 (all_goals (try split))
       all_goals simp_all [runBeforeHook, runAfterHook])
  · intro st session orgId fid orig r hbase
    unfold removeFeatureFlag at hbase
    refine ⟨fun e he => ?_, fun d he hd => ?_, fun he hd => ?_⟩ <;>
      (unfold removeFeatureFlag
       all_goals (try simp_all [runBeforeHook, runAfterHook])
       iterate 12 (all_goals (try split))
       all_goals simp_all [runBeforeHook, runAfterHook])
  · intro st session orgId orig r hbase
    unfold getOrganizationFeatures at hbase
    refine ⟨fun e he => ?_, fun d he hd => ?_, fun he hd => ?_⟩ <;>
      (unfold getOrganizationFeatures
       all_goals (try simp_all [runBeforeHook, runAfterHook])
       iterate 12 (all_goals (try split))
       all_goals simp_all [runBeforeHook, runAfterHook])
  · intro st session orgId orig r hbase
    unfold getFeatureFlags at hbase
    refine ⟨fun e he => ?_, fun d he hd => ?_, fun he hd => ?_⟩ <;>
      (unfold getFeatureFlags
       all_goals (try simp_all [runBeforeHook, runAfterHook])
       iterate 12 (all_goals (try split))
       all_goals simp_all [runBeforeHook, runAfterHook])
  · intro st s aoid m orig r hact hmem hbase
    unfold getAvailableFeatures at hbase
    refine ⟨fun e he => ?_, fun d he hd => ?_, fun he hd => ?_⟩ <;>
      (unfold getAvailableFeatures
       all_goals simp_all [runBeforeHook, runAfterHook])

/-- Witness for C3: an after-hook error (status 418) overrides a
successful flag creation, and an after-hook with replacement data
overrides a successful feature creation. -/
theorem c3_witness :
    (setOrganizationFeature
        { after := some (fun _ => { error := some ⟨"audit failed", some 418⟩ }) }
        (some adminSession) setupStore "o1" "f1" "of9" 3 ⟨true⟩).res =
      .fail "audit failed" 418 ∧
    (createFeature
        { after := some (fun _ => ({ data := some betaFeature } :
            AfterHookResult Feature)) }
        (some adminSession) adminStore "f9" 2 ⟨"x", "X", none, none⟩).res =
      .feature betaFeature :=
  ⟨(c3_after_hook_precedence.2.2.2.2.2.1 setupStore (some adminSession)
      "o1" "f1" "of9" 3 ⟨true⟩
      ⟨⟨"of9", "o1", "f1", true, 3, 3⟩, some betaFeature⟩
      { error := some ⟨"audit failed", some 418⟩ } rfl).1
      ⟨"audit failed", some 418⟩ rfl,
   (c3_after_hook_precedence.1 adminStore (some adminSession) "f9" 2
      ⟨"x", "X", none, none⟩ (featureFromInput "f9" 2 ⟨"x", "X", none, none⟩)
      { data := some betaFeature } rfl).2.1 betaFeature rfl rfl⟩

/-- C4: the set-flag validation order and effect: feature missing → 404;
feature inactive → 400 regardless of the requested value; organization
missing → 404; existing (P,F) flag → 409; otherwise the flag is created
with exactly the requested `enabled` value (false included), and a second
set for the same (P,F) on the resulting store answers Conflict whatever
its requested value. -/
theorem c4_set_flag_validation_order (s : Session) (st : Store)
    (organizationId featureId newId : String) (now : Nat)
    (body : SetOrganizationFeatureInput) (u : UserRec)
    (hu : findUser st s.userId = some u) (hrole : u.role = "admin") :
    (findOneFeature st [.eqS "id" featureId] = none →
      setOrganizationFeature {} (some s) st organizationId featureId newId
        now body = ⟨.fail "Feature not found" 404, st, 0⟩) ∧
    (∀ f, findOneFeature st [.eqS "id" featureId] = some f →
      f.active = false →
      setOrganizationFeature {} (some s) st organizationId featureId newId
        now body = ⟨.fail "Feature is not enabled globally" 400, st, 0⟩) ∧
    (∀ f, findOneFeature st [.eqS "id" featureId] = some f →
      f.active = true → findOrganization st organizationId = none →
      setOrganizationFeature {} (some s) st organizationId featureId newId
        now body = ⟨.fail "Organization not found" 404, st, 0⟩) ∧
    (∀ f o fl, findOneFeature st [.eqS "id" featureId] = some f →
      f.active = true → findOrganization st organizationId = some o →
      findFlagByOrgFeature st.orgFeatures organizationId featureId = some fl →
      setOrganizationFeature {} (some s) st organizationId featureId newId
        now body = ⟨.fail "Organization feature already exists" 409, st, 0⟩) ∧
    (∀ f o, findOneFeature st [.eqS "id" featureId] = some f →
      f.active = true → findOrganization st organizationId = some o →
      findFlagByOrgFeature st.orgFeatures organizationId featureId = none →
      setOrganizationFeature {} (some s) st organizationId featureId newId
          now body =
        ⟨.ok ⟨⟨newId, organizationId, featureId, body.enabled, now, now⟩,
              some f⟩,
         { st with orgFeatures := st.orgFeatures ++
            [⟨newId, organizationId, featureId, body.enabled, now, now⟩] },
         1⟩ ∧
      (∀ (newId2 : String) (now2 : Nat) (body2 : SetOrganizationFeatureInput),
        (setOrganizationFeature {} (some s)
            { st with orgFeatures := st.orgFeatures ++
               [⟨newId, organizationId, featureId, body.enabled, now, now⟩] }
            organizationId featureId newId2 now2 body2).res =
          .fail "Organization feature already exists" 409)) := by
  refine ⟨?_, ?_, ?_, ?_, ?_⟩
  · intro hf
    simp [setOrganizationFeature, runBeforeHook, hu, hrole, hf]
  · intro f hf hact
    simp [setOrganizationFeature, runBeforeHook, hu, hrole, hf, hact]
  · intro f hf hact ho
    simp [setOrganizationFeature, runBeforeHook, hu, hrole, hf, hact, ho]
  · intro f o fl hf hact ho hfl
    simp [setOrganizationFeature, runBeforeHook, hu, hrole, hf, hact, ho, hfl]
  · intro f o hf hact ho hnone
    constructor
    · simp [setOrganizationFeature, runBeforeHook, runAfterHook,
        findOneFeature_set_orgFeatures, hu, hrole, hf, hact, ho, hnone]
    · intro newId2 now2 body2
      have happ := findFlag_append_of_none hnone
        (⟨newId, organizationId, featureId, body.enabled, now, now⟩ : Flag)
        (by simp)
      simp [setOrganizationFeature, runBeforeHook,
        findOneFeature_set_orgFeatures, findUser_set_orgFeatures,
        findOrganization_set_orgFeatures, hu, hrole, hf, hact, ho, happ]

/-- Witness for C4: setting `(o1, f1)` with `enabled = false` succeeds and
persists `enabled = false`; an immediate second set with `enabled = true`
answers Conflict. -/
theorem c4_witness :
    setOrganizationFeature {} (some adminSession) setupStore "o1" "f1" "of1"
        5 ⟨false⟩ =
      ⟨.ok ⟨⟨"of1", "o1", "f1", false, 5, 5⟩, some betaFeature⟩,
       { setupStore with orgFeatures := [⟨"of1", "o1", "f1", false, 5, 5⟩] },
       1⟩ ∧
    (setOrganizationFeature {} (some adminSession)
        { setupStore with orgFeatures := [⟨"of1", "o1", "f1", false, 5, 5⟩] }
        "o1" "f1" "of2" 6 ⟨true⟩).res =
      .fail "Organization feature already exists" 409 := by
  have h := (c4_set_flag_validation_order adminSession setupStore "o1" "f1"
      "of1" 5 ⟨false⟩ ⟨"u1", "admin"⟩ rfl rfl).2.2.2.2 betaFeature "o1"
      rfl rfl rfl rfl
  exact ⟨h.1, h.2 "of2" 6 ⟨true⟩⟩

/-- C6: remove-flag answers NotFound and leaves the store unchanged when
no (P,F) flag exists — and does so twice on an already-removed pair; when
a flag exists it is deleted by its internal id, after which (under the
at-most-one-flag-per-pair invariant) an immediate second remove answers
NotFound, so two consecutive removes never both succeed; both the
`featureFlag` and the `organizationFeature` endpoint behave this way. -/
theorem c6_remove_flag_idempotence (s : Session) (st : Store)
    (organizationId featureId : String) (u : UserRec)
    (hu : findUser st s.userId = some u) (hrole : u.role = "admin") :
    (findFlagByOrgFeature st.featureFlags organizationId featureId = none →
      removeFeatureFlag {} (some s) st organizationId featureId =
        ⟨.fail "Feature flag not found" 404, st, 0⟩ ∧
      (removeFeatureFlag {} (some s)
          (removeFeatureFlag {} (some s) st organizationId featureId).store
          organizationId featureId).res = .fail "Feature flag not found" 404) ∧
    (∀ fl, findFlagByOrgFeature st.featureFlags organizationId featureId = some fl →
      atMostOneFlagFor st.featureFlags organizationId featureId →
      removeFeatureFlag {} (some s) st organizationId featureId =
        ⟨.ok ⟨true⟩,
         { st with featureFlags :=
            st.featureFlags.filter (fun x => !(x.id == fl.id)) }, 1⟩ ∧
      (removeFeatureFlag {} (some s)
          (removeFeatureFlag {} (some s) st organizationId featureId).store
          organizationId featureId).res = .fail "Feature flag not found" 404) ∧
    (findFlagByOrgFeature st.orgFeatures organizationId featureId = none →
      removeOrganizationFeature {} (some s) st organizationId featureId =
        ⟨.fail "Organization feature not found" 404, st, 0⟩ ∧
      (removeOrganizationFeature {} (some s)
          (removeOrganizationFeature {} (some s) st organizationId featureId).store
          organizationId featureId).res =
        .fail "Organization feature not found" 404) ∧
    (∀ fl, findFlagByOrgFeature st.orgFeatures organizationId featureId = some fl →
      atMostOneFlagFor st.orgFeatures organizationId featureId →
      removeOrganizationFeature {} (some s) st organizationId featureId =
        ⟨.ok ⟨true⟩,
         { st with orgFeatures :=
            st.orgFeatures.filter (fun x => !(x.id == fl.id)) }, 1⟩ ∧
      (removeOrganizationFeature {} (some s)
          (removeOrganizationFeature {} (some s) st organizationId featureId).store
          organizationId featureId).res =
        .fail "Organization feature not found" 404) := by
  refine ⟨?_, ?_, ?_, ?_⟩
  · intro hn
    have h1 : removeFeatureFlag {} (some s) st organizationId featureId =
        ⟨.fail "Feature flag not found" 404, st, 0⟩ := by
      simp [removeFeatureFlag, runBeforeHook, hu, hrole, hn]
    refine ⟨h1, ?_⟩
    rw [h1]
    simp [removeFeatureFlag, runBeforeHook, hu, hrole, hn]
  · intro fl hfl huniq
    have h1 : removeFeatureFlag {} (some s) st organizationId featureId =
        ⟨.ok ⟨true⟩,
         { st with featureFlags :=
            st.featureFlags.filter (fun x => !(x.id == fl.id)) }, 1⟩ := by
      simp [removeFeatureFlag, runBeforeHook, runAfterHook, hu, hrole, hfl]
    refine ⟨h1, ?_⟩
    rw [h1]
    have h2 := findFlag_delete_self_none hfl huniq
    simp [removeFeatureFlag, runBeforeHook, findUser_set_featureFlags,
      hu, hrole, h2]
  · intro hn
    have h1 : removeOrganizationFeature {} (some s) st organizationId featureId =
        ⟨.fail "Organization feature not found" 404, st, 0⟩ := by
      simp [removeOrganizationFeature, runBeforeHook, hu, hrole, hn]
    refine ⟨h1, ?_⟩
    rw [h1]
    simp [removeOrganizationFeature, runBeforeHook, hu, hrole, hn]
  · intro fl hfl huniq
    have h1 : removeOrganizationFeature {} (some s) st organizationId featureId =
        ⟨.ok ⟨true⟩,
         { st with orgFeatures :=
            st.orgFeatures.filter (fun x => !(x.id == fl.id)) }, 1⟩ := by
      simp [removeOrganizationFeature, runBeforeHook, runAfterHook, hu, hrole, hfl]
    refine ⟨h1, ?_⟩
    rw [h1]
    have h2 := findFlag_delete_self_none hfl huniq
    simp [removeOrganizationFeature, runBeforeHook, findUser_set_orgFeatures,
      hu, hrole, h2]

/-- Witness for C6: removing the `(o1, f1)` flag succeeds once and the
immediate second remove answers NotFound. -/
theorem c6_witness :
    removeFeatureFlag {} (some adminSession) adminFlagStore "o1" "f1" =
      ⟨.ok ⟨true⟩, { adminFlagStore with featureFlags := [] }, 1⟩ ∧
    (removeFeatureFlag {} (some adminSession)
        (removeFeatureFlag {} (some adminSession) adminFlagStore "o1" "f1").store
        "o1" "f1").res = .fail "Feature flag not found" 404 := by
  have h := (c6_remove_flag_idempotence adminSession adminFlagStore "o1" "f1"
      ⟨"u1", "admin"⟩ rfl rfl).2.1 betaFlag rfl (by decide)
  exact ⟨h.1.trans (by decide), h.2⟩

end FeatureFlags
